import Mathlib

/-!
A shallow embedding of the core of the `lyra` music-bot repository:

* the audio-filter model (`Timescale`, `Filters`, the `SetPitch` and
  `SpeedFilter` effects from `component/tuning/filter/pitch/set.rs` and
  `component/tuning/speed.rs`),
* the volume `Down` command (`component/tuning/volume/down.rs`), modelled as a
  state-and-trace function with oracles for the outcomes of the two remote
  calls,
* the generated typed-context constructors (`lyra_proc/src/lib.rs`,
  `_declare_kinds`),
* the gateway event dispatcher (`gateway/process.rs`),
* the HTTP interaction handler up to signature extraction
  (`interactions/server.rs`).

Machine floats (`f64`) are modelled as exact rationals; the constructors'
comparisons (`!= 0`, `|x - 1| > f64::EPSILON`, range pattern `0.0..=1.0`)
are order comparisons that agree with the exact-rational ones on the values
involved (subtraction of floats near `1.0` is exact by Sterbenz's lemma).
-/

namespace Lyra

/-- `f64::EPSILON` (the machine epsilon used by the effect constructors) as an
exact rational: `2 ^ (-52)`. -/
def f64Epsilon : ℚ := 1 / 2 ^ 52

/-- `lavalink_rs::model::player::Timescale`: the nested aggregate holding the
three optional sub-fields `speed`, `pitch`, `rate`. Its `Default` is all
`None`. -/
structure Timescale where
  speed : Option ℚ
  pitch : Option ℚ
  rate : Option ℚ
  deriving DecidableEq, Repr

/-- `Timescale::default()`: every sub-field unset. -/
def Timescale.default : Timescale := ⟨none, none, none⟩

/-- `lavalink_rs::model::player::Tremolo`: a sibling filter slot, carried along
to state that `apply` preserves the other slots of the aggregate verbatim. -/
structure Tremolo where
  frequency : Option ℚ
  depth : Option ℚ
  deriving DecidableEq, Repr

/-- `lavalink_rs::model::player::Filters` restricted to the slots in scope of
the spec (`timescale` and the structurally-identical sibling `tremolo`); the
Rust functional-update syntax `Filters { timescale, ..filter }` preserves
every other slot. -/
structure Filters where
  timescale : Option Timescale
  tremolo : Option Tremolo
  deriving DecidableEq, Repr

/-- `Filters::default()`: no filter slot set. -/
def Filters.default : Filters := ⟨none, none⟩

/-- `SetPitch` (`filter/pitch/set.rs`): tuple struct `SetPitch(Option<f64>)`;
`val` is its unnamed field `0`. -/
structure SetPitch where
  val : Option ℚ
  deriving DecidableEq, Repr

/-- `SetPitch::DEFAULT_PITCH`. -/
def SetPitch.DEFAULT_PITCH : ℚ := 1

/-- `SetPitch::new`: reject a zero multiplier; normalise a multiplier within
`f64::EPSILON` of `DEFAULT_PITCH` to unset. -/
def SetPitch.new (multiplier : ℚ) : Option SetPitch :=
  if multiplier ≠ 0 then
    some ⟨if |multiplier - SetPitch.DEFAULT_PITCH| > f64Epsilon then some multiplier else none⟩
  else
    none

/-- `SetPitch::into_timescale_via`: overwrite only the `pitch` sub-field. -/
def SetPitch.into_timescale_via (s : SetPitch) (timescale : Timescale) : Timescale :=
  { timescale with pitch := s.val }

/-- `SetPitch::multiplier`: the effective value, defaulting to neutral. -/
def SetPitch.multiplier (s : SetPitch) : ℚ := s.val.getD SetPitch.DEFAULT_PITCH

/-- The `Tier` enum of the pitch-filter module (`filter/pitch.rs`, the parent
module of `set.rs`): its constructors are the ones matched in
`SetPitch::tier`. -/
inductive PitchTier
  | Default
  | Low
  | High
  deriving DecidableEq, Repr

/-- `SetPitch::tier`: `None => Default`, `Some(0.0..=1.0) => Low`,
`_ => High`. -/
def SetPitch.tier (s : SetPitch) : PitchTier :=
  match s.val with
  | none => .Default
  | some m => if 0 ≤ m ∧ m ≤ 1 then .Low else .High

/-- `<SetPitch as UpdateFilter>::apply`: rebuild the `timescale` slot from the
existing one (or the default when absent), leaving the other slots to the
functional update. -/
def SetPitch.apply (s : SetPitch) (filter : Filters) : Filters :=
  { filter with
    timescale := some (s.into_timescale_via (filter.timescale.getD Timescale.default)) }

/-- `SpeedFilter` (`speed.rs`). -/
structure SpeedFilter where
  multiplier : Option ℚ
  pitch_shift : Bool
  deriving DecidableEq, Repr

/-- `SpeedFilter::DEFAULT_SPEED`. -/
def SpeedFilter.DEFAULT_SPEED : ℚ := 1

/-- `SpeedFilter::new`: reject a zero multiplier; normalise a multiplier within
`f64::EPSILON` of `DEFAULT_SPEED` to unset. -/
def SpeedFilter.new (multiplier : ℚ) (pitch_shift : Bool) : Option SpeedFilter :=
  if multiplier ≠ 0 then
    some
      { multiplier :=
          if |multiplier - SpeedFilter.DEFAULT_SPEED| > f64Epsilon then some multiplier else none
        pitch_shift := pitch_shift }
  else
    none

/-- `SpeedFilter::into_timescale_via`: write the multiplier into `rate` (and
unset `speed`) when `pitch_shift`, else into `speed` (and unset `rate`);
`pitch` is preserved by the functional update. -/
def SpeedFilter.into_timescale_via (s : SpeedFilter) (timescale : Timescale) : Timescale :=
  let speedRate := if s.pitch_shift then ((none : Option ℚ), s.multiplier) else (s.multiplier, none)
  { timescale with speed := speedRate.1, rate := speedRate.2 }

/-- The `Tier` enum of `speed.rs`. -/
inductive SpeedTier
  | Default
  | Fast
  | Slow
  deriving DecidableEq, Repr

/-- `SpeedFilter::tier`: `None => Default`, `Some(0.0..=1.0) => Slow`,
`_ => Fast`. -/
def SpeedFilter.tier (s : SpeedFilter) : SpeedTier :=
  match s.multiplier with
  | none => .Default
  | some m => if 0 ≤ m ∧ m ≤ 1 then .Slow else .Fast

/-- `<SpeedFilter as UpdateFilter>::apply`. -/
def SpeedFilter.apply (s : SpeedFilter) (filter : Filters) : Filters :=
  { filter with
    timescale := some (s.into_timescale_via (filter.timescale.getD Timescale.default)) }

/-- The two effects of this excerpt that write into the `Timescale`
aggregate. -/
inductive TsEffect
  | pitch (s : SetPitch)
  | speed (s : SpeedFilter)
  deriving DecidableEq, Repr

/-- Dispatch of `UpdateFilter::apply` over the two effects. -/
def TsEffect.apply : TsEffect → Filters → Filters
  | .pitch s, f => s.apply f
  | .speed s, f => s.apply f

/-- The three sub-fields of the `Timescale` aggregate, as an index type. -/
inductive TsField
  | speed
  | pitch
  | rate
  deriving DecidableEq, Repr

/-- Read one sub-field of a `Timescale`. -/
def Timescale.get : Timescale → TsField → Option ℚ
  | t, .speed => t.speed
  | t, .pitch => t.pitch
  | t, .rate => t.rate

/-- Read one `Timescale` sub-field out of a `Filters`, reading the default
(all-unset) aggregate when the `timescale` slot is absent — exactly the view
`apply` takes of its input via `unwrap_or_default`. -/
def Filters.tsGet (f : Filters) (field : TsField) : Option ℚ :=
  (f.timescale.getD Timescale.default).get field

/-- Which `Timescale` sub-fields an effect overwrites: `SetPitch` overwrites
only `pitch`; `SpeedFilter` overwrites both `speed` and `rate` (it sets one
and unsets the other). -/
def TsEffect.touches : TsEffect → TsField → Bool
  | .pitch _, field => decide (field = TsField.pitch)
  | .speed _, field => decide (field ≠ TsField.pitch)

/-- The value an effect writes into a sub-field it touches. -/
def TsEffect.writeVal : TsEffect → TsField → Option ℚ
  | .pitch s, .pitch => s.val
  | .pitch _, .speed => none
  | .pitch _, .rate => none
  | .speed s, .speed => if s.pitch_shift then none else s.multiplier
  | .speed s, .rate => if s.pitch_shift then s.multiplier else none
  | .speed _, .pitch => none

/-! ## The volume `Down` command (`component/tuning/volume/down.rs`)

`Down::run` is modelled as a pure function over the guild's local state.  The
outcomes of the two remote calls (the lavalink `set_volume` call and the
Discord HTTP mute call) are supplied as Boolean oracles; a `?`-propagated
remote failure is an early return with `ok := false`.  The `trace` records, in
program order, the remote calls issued and the local commits performed. -/

/-- One observable step of `Down::run`: a remote call being issued or a local
store commit. -/
inductive Ev
  | remoteSetVolume (v : ℕ)
  | localSetVolume (v : ℕ)
  | localSetMute (b : Bool)
  | remoteSetMute (b : Bool)
  deriving DecidableEq, Repr

/-- The per-guild local state `Down::run` touches: the player volume held in
the player data store (a `NonZeroU16`, modelled as a positive natural), and
the `mute` flag of the local connection record. -/
structure DownState where
  volume : ℕ
  connMute : Bool
  deriving DecidableEq, Repr

/-- Result of one `Down::run`: whether it returned successfully, the final
local state, and the ordered event trace. -/
structure DownOutcome where
  ok : Bool
  state : DownState
  trace : List Ev
  deriving DecidableEq, Repr

/-- `Down::run`.  `percent` is the command option (`unwrap_or(10)`);
`maybe_new_percent = old.checked_sub(d) |> NonZeroU16::new` is `some (V - d)`
exactly when `d < V`.  In the `Some` branch the remote `set_volume` call is
issued first and the local volume is committed only on its success.  In the
`None` branch the local connection's `mute` flag is set to `true` *before*
the remote Discord mute call is issued. -/
def downRun (percent : Option ℕ) (st : DownState) (volOk muteOk : Bool) : DownOutcome :=
  let d := percent.getD 10
  match (if d < st.volume then some (st.volume - d) else none) with
  | some n =>
    if volOk then
      { ok := true
        state := { st with volume := n }
        trace := [.remoteSetVolume n, .localSetVolume n] }
    else
      { ok := false, state := st, trace := [.remoteSetVolume n] }
  | none =>
    { ok := muteOk
      state := { st with connMute := true }
      trace := [.localSetMute true, .remoteSetMute true] }

/-- Whether an event is a remote call (as opposed to a local commit). -/
def Ev.isRemote : Ev → Bool
  | .remoteSetVolume _ => true
  | .remoteSetMute _ => true
  | .localSetVolume _ => false
  | .localSetMute _ => false

/-- The remote calls issued during a run, in order. -/
def remoteCalls (t : List Ev) : List Ev := t.filter Ev.isRemote

/-! ## Typed context construction (`lyra_proc/src/lib.rs`, `_declare_kinds`)

The macro expands, for each kind in `{App, Component, Modal, Autocomplete}`,
a constructor `from_<kind>_interaction` that checks the raw interaction's
wire discriminant against the kind's mapped `InteractionType` and panics on a
mismatch.  The panic is modelled as `none`. -/

/-- `twilight_model::application::interaction::InteractionType` (the wire
discriminants relevant to the mapping, plus `Ping`). -/
inductive InteractionType
  | Ping
  | ApplicationCommand
  | MessageComponent
  | ApplicationCommandAutocomplete
  | ModalSubmit
  deriving DecidableEq, Repr

/-- The four logical kinds declared by `declare_kinds(App, Component, Modal,
Autocomplete)`. -/
inductive Kind
  | App
  | Component
  | Modal
  | Autocomplete
  deriving DecidableEq, Repr

/-- The kind-to-discriminant mapping hard-coded in `_declare_kinds`. -/
def Kind.interType : Kind → InteractionType
  | .App => .ApplicationCommand
  | .Component => .MessageComponent
  | .Modal => .ModalSubmit
  | .Autocomplete => .ApplicationCommandAutocomplete

/-- The raw `InteractionCreate` payload: its wire discriminant `kind` plus the
rest of the interaction data, abstracted as a type parameter. -/
structure InteractionCreate (α : Type) where
  kind : InteractionType
  payload : α
  deriving DecidableEq, Repr

/-- `Context<K>`: the shared bot state plus the exclusively-owned raw
interaction; the kind tag is the type-level index `K` (the `PhantomData`
marker). -/
structure Context (K : Kind) (α : Type) (β : Type) where
  bot : β
  interaction : InteractionCreate α
  deriving DecidableEq, Repr

/-- The body the macro expands for every kind: succeed with the bundle exactly
when the wire discriminant matches `K`'s mapped discriminant, otherwise fail
(`panic!`, modelled as `none`). -/
def fromKindInteraction {α β : Type} (K : Kind) (interaction : InteractionCreate α) (bot : β) :
    Option (Context K α β) :=
  if interaction.kind = K.interType then some ⟨bot, interaction⟩ else none

/-! ## The gateway event dispatcher (`gateway/process.rs`) -/

/-- The inbound gateway event.  The five explicitly-routed variants carry
their payload (abstracted as a natural); `other` stands for every remaining
`twilight_gateway::Event` variant, caught by the `_` arm. -/
inductive Event
  | ready (d : ℕ)
  | guildCreate (d : ℕ)
  | guildDelete (d : ℕ)
  | interactionCreate (d : ℕ)
  | voiceStateUpdate (d : ℕ)
  | other (k : ℕ)
  deriving DecidableEq, Repr

/-- The context a dispatcher branch constructs before invoking its
processing. -/
inductive GatewayCtx
  | ready (d : ℕ)
  | guildCreate (d : ℕ)
  | guildDelete (d : ℕ)
  | interactionCreate (d : ℕ)
  | voiceStateUpdate (d : ℕ)
  deriving DecidableEq, Repr

/-- `process`: route the event to its context construction and processing
call, returning the handler's result verbatim, together with the list of
contexts constructed (empty for the `_` arm).  `h` is the processing of a
constructed context; its error type `ε` stands for the closed union
`ProcessError` of `error/gateway`. -/
def process {ε : Type} (event : Event) (h : GatewayCtx → Except ε Unit) :
    Except ε Unit × List GatewayCtx :=
  match event with
  | .ready d => (h (.ready d), [.ready d])
  | .guildCreate d => (h (.guildCreate d), [.guildCreate d])
  | .guildDelete d => (h (.guildDelete d), [.guildDelete d])
  | .interactionCreate d => (h (.interactionCreate d), [.interactionCreate d])
  | .voiceStateUpdate d => (h (.voiceStateUpdate d), [.voiceStateUpdate d])
  | .other _ => (Except.ok (), [])

/-! ## The HTTP interaction handler (`interactions/server.rs`), through
signature extraction

`interaction_handler` is modelled up to the point where the Ed25519 signature
has been extracted from the `x-signature-ed25519` header: the later stages
(body read, key verification, JSON decoding) are beyond the claim.  The
`hex_sig.parse().unwrap()` on a header that is valid visible ASCII but not a
decodable 64-byte hex signature is a panic, modelled as the distinguished
outcome `panicked`. -/

/-- The HTTP request method; the handler only distinguishes `POST`. -/
inductive Method
  | post
  | get
  | put
  | patch
  | delete
  | head
  | options
  deriving DecidableEq, Repr

/-- An inbound HTTP request: method, path, and headers as raw byte values. -/
structure Request where
  method : Method
  path : String
  headers : List (String × List ℕ)
  deriving DecidableEq, Repr

/-- `headers().get(name)`: the first header with the given name. -/
def getHeader (req : Request) (name : String) : Option (List ℕ) :=
  (req.headers.find? (fun p => p.1 == name)).map Prod.snd

/-- `HeaderValue::to_str`: succeeds exactly when every byte is visible ASCII
(32–126), yielding the corresponding string. -/
def headerToStr (bytes : List ℕ) : Option String :=
  if bytes.all (fun b => 32 ≤ b && b ≤ 126) then
    some (String.mk (bytes.map Char.ofNat))
  else
    none

/-- Value of one hexadecimal digit. -/
def hexDigitVal (c : Char) : Option ℕ :=
  if '0' ≤ c ∧ c ≤ '9' then some (c.toNat - Char.toNat '0')
  else if 'a' ≤ c ∧ c ≤ 'f' then some (c.toNat - Char.toNat 'a' + 10)
  else if 'A' ≤ c ∧ c ≤ 'F' then some (c.toNat - Char.toNat 'A' + 10)
  else none

/-- Hex-decode a character list, two digits per byte. -/
def decodeHex : List Char → Option (List ℕ)
  | [] => some []
  | [_] => none
  | c1 :: c2 :: rest =>
    match hexDigitVal c1, hexDigitVal c2, decodeHex rest with
    | some h, some l, some bs => some ((16 * h + l) :: bs)
    | _, _, _ => none

/-- `ed25519::Signature`'s `FromStr` (the `hex_sig.parse()` call): hex-decode
the string and require exactly 64 bytes. -/
def parseSignature (s : String) : Option (List ℕ) :=
  (decodeHex s.toList).bind fun bs => if bs.length = 64 then some bs else none

/-- Outcome of the handler through signature extraction: an early error
response with the given status, a panic, or proceeding to the verification
stage with the extracted timestamp header and signature bytes. -/
inductive HandlerOutcome
  | response (status : ℕ)
  | panicked
  | checkSignature (timestamp : List ℕ) (signature : List ℕ)
  deriving DecidableEq, Repr

/-- `interaction_handler`, through signature extraction: non-`POST` → 405;
path other than `/` → 404; missing timestamp header → 400; missing or
non-ASCII signature header → 400; then `hex_sig.parse().unwrap()` — a parse
failure is a panic, not an error response. -/
def interaction_handler (req : Request) : HandlerOutcome :=
  if req.method ≠ .post then .response 405
  else if req.path ≠ "/" then .response 404
  else
    match getHeader req "x-signature-timestamp" with
    | none => .response 400
    | some ts =>
      match (getHeader req "x-signature-ed25519").bind headerToStr with
      | none => .response 400
      | some hexSig =>
        match parseSignature hexSig with
        | some sig => .checkSignature ts sig
        | none => .panicked

/-! ## Helper lemmas -/

/-- `3/2` is farther than `f64::EPSILON` from the neutral value. -/
theorem three_halves_not_neutral : |(3 : ℚ)/2 - SetPitch.DEFAULT_PITCH| > f64Epsilon := by
  rw [SetPitch.DEFAULT_PITCH, gt_iff_lt, lt_abs]
  left
  rw [f64Epsilon]
  norm_num

/-- `2` is farther than `f64::EPSILON` from the neutral value. -/
theorem two_not_neutral : |(2 : ℚ) - SpeedFilter.DEFAULT_SPEED| > f64Epsilon := by
  rw [SpeedFilter.DEFAULT_SPEED, gt_iff_lt, lt_abs]
  left
  rw [f64Epsilon]
  norm_num

/-- `SetPitch::new(1.5)` stores the multiplier explicitly. -/
theorem setPitch_new_three_halves : SetPitch.new (3/2) = some ⟨some (3/2)⟩ := by
  unfold SetPitch.new
  rw [if_pos (by norm_num : ((3 : ℚ)/2) ≠ 0), if_pos three_halves_not_neutral]

/-- `SpeedFilter::new(2.0, false)` stores the multiplier explicitly. -/
theorem speedFilter_new_two : SpeedFilter.new 2 false = some ⟨some 2, false⟩ := by
  unfold SpeedFilter.new
  rw [if_pos (by norm_num : ((2 : ℚ)) ≠ 0), if_pos two_not_neutral]

/-- The exact neutral multiplier is not farther than `f64::EPSILON` from the
neutral value. -/
theorem one_is_neutral : ¬ (|(1 : ℚ) - 1| > f64Epsilon) := by
  rw [gt_iff_lt, sub_self, abs_zero, f64Epsilon]
  norm_num

/-! ## Claim theorems -/

/-- C4: for every effect (`SetPitch` or `SpeedFilter`) and every input
`Filters`, `apply` overwrites exactly the effect's own `Timescale` sub-fields
(writing the effect's own values there), preserves the unrelated sub-fields
of the same nested `Timescale` aggregate, and preserves the other filter
slots of the `Filters` verbatim. -/
theorem effect_apply_frame (e : TsEffect) (f : Filters) (field : TsField) :
    (e.apply f).tremolo = f.tremolo ∧
    (e.apply f).tsGet field =
      (if e.touches field then e.writeVal field else f.tsGet field) := by
  cases e with
  | pitch s =>
    cases field <;>
      simp [TsEffect.apply, SetPitch.apply, SetPitch.into_timescale_via, TsEffect.touches,
        TsEffect.writeVal, Filters.tsGet, Timescale.get]
  | speed s =>
    cases field <;> cases hb : s.pitch_shift <;>
      simp [TsEffect.apply, SpeedFilter.apply, SpeedFilter.into_timescale_via, TsEffect.touches,
        TsEffect.writeVal, Filters.tsGet, Timescale.get, hb]

/-- C5: applying effect `a` then effect `b` into the shared `Timescale`
aggregate equals applying `b` alone on the sub-fields `b` touches (and on the
other filter slots), while the sub-fields untouched by `b` carry the value
they have after applying `a` alone (last-write-wins); in particular, from the
empty `Filters`, `SetPitch::new(1.5)` then `SpeedFilter::new(2.0, false)`
yields pitch `3/2` preserved, speed `2`, rate unset. -/
theorem effect_seq_last_write_wins :
    (∀ (a b : TsEffect) (f : Filters) (field : TsField),
      (b.apply (a.apply f)).tsGet field =
        (if b.touches field then (b.apply f).tsGet field else (a.apply f).tsGet field)) ∧
    (∀ (a b : TsEffect) (f : Filters), (b.apply (a.apply f)).tremolo = (b.apply f).tremolo) ∧
    (SetPitch.new (3/2) = some ⟨some (3/2)⟩ ∧
      SpeedFilter.new 2 false = some ⟨some 2, false⟩ ∧
      SetPitch.apply ⟨some (3/2)⟩ Filters.default =
        ⟨some ⟨none, some (3/2), none⟩, none⟩ ∧
      SpeedFilter.apply ⟨some 2, false⟩ ⟨some ⟨none, some (3/2), none⟩, none⟩ =
        ⟨some ⟨some 2, some (3/2), none⟩, none⟩) := by
  refine ⟨?_, ?_, setPitch_new_three_halves, speedFilter_new_two, rfl, rfl⟩
  · intro a b f field
    cases a with
    | pitch sa =>
      cases b with
      | pitch sb =>
        cases field <;>
          simp [TsEffect.apply, SetPitch.apply, SetPitch.into_timescale_via, TsEffect.touches,
            Filters.tsGet, Timescale.get]
      | speed sb =>
        cases field <;> cases hb : sb.pitch_shift <;>
          simp [TsEffect.apply, SetPitch.apply, SetPitch.into_timescale_via, SpeedFilter.apply,
            SpeedFilter.into_timescale_via, TsEffect.touches, Filters.tsGet, Timescale.get, hb]
    | speed sa =>
      cases b with
      | pitch sb =>
        cases field <;> cases ha : sa.pitch_shift <;>
          simp [TsEffect.apply, SetPitch.apply, SetPitch.into_timescale_via, SpeedFilter.apply,
            SpeedFilter.into_timescale_via, TsEffect.touches, Filters.tsGet, Timescale.get, ha]
      | speed sb =>
        cases field <;> cases ha : sa.pitch_shift <;> cases hb : sb.pitch_shift <;>
          simp [TsEffect.apply, SpeedFilter.apply, SpeedFilter.into_timescale_via,
            TsEffect.touches, Filters.tsGet, Timescale.get, ha, hb]
  · intro a b f
    cases a <;> cases b <;>
      simp [TsEffect.apply, SetPitch.apply, SpeedFilter.apply]

/-- C6: the constructors reject exactly the zero multiplier; a non-zero
multiplier within `f64::EPSILON` of the neutral value `1` is normalised to
unset; any other multiplier is stored explicitly. -/
theorem effect_new_validation (m : ℚ) (b : Bool) :
    ((SetPitch.new m = none ↔ m = 0) ∧ (SpeedFilter.new m b = none ↔ m = 0)) ∧
    (m ≠ 0 → |m - 1| ≤ f64Epsilon →
      SetPitch.new m = some ⟨none⟩ ∧ SpeedFilter.new m b = some ⟨none, b⟩) ∧
    (m ≠ 0 → |m - 1| > f64Epsilon →
      SetPitch.new m = some ⟨some m⟩ ∧ SpeedFilter.new m b = some ⟨some m, b⟩) := by
  refine ⟨⟨?_, ?_⟩, ?_, ?_⟩
  · unfold SetPitch.new
    split <;> simp_all
  · unfold SpeedFilter.new
    split <;> simp_all
  · intro h1 h2
    have hp : ¬ (|m - SetPitch.DEFAULT_PITCH| > f64Epsilon) := by
      rw [SetPitch.DEFAULT_PITCH]
      exact not_lt.mpr h2
    have hs : ¬ (|m - SpeedFilter.DEFAULT_SPEED| > f64Epsilon) := by
      rw [SpeedFilter.DEFAULT_SPEED]
      exact not_lt.mpr h2
    constructor
    · unfold SetPitch.new
      rw [if_pos h1, if_neg hp]
    · unfold SpeedFilter.new
      rw [if_pos h1, if_neg hs]
  · intro h1 h2
    have hp : |m - SetPitch.DEFAULT_PITCH| > f64Epsilon := by
      rw [SetPitch.DEFAULT_PITCH]
      exact h2
    have hs : |m - SpeedFilter.DEFAULT_SPEED| > f64Epsilon := by
      rw [SpeedFilter.DEFAULT_SPEED]
      exact h2
    constructor
    · unfold SetPitch.new
      rw [if_pos h1, if_pos hp]
    · unfold SpeedFilter.new
      rw [if_pos h1, if_pos hs]

/-- Witness for C6: the non-neutral multiplier `3` is stored explicitly by
both constructors. -/
theorem effect_new_validation_witness :
    SetPitch.new 3 = some ⟨some 3⟩ ∧ SpeedFilter.new 3 true = some ⟨some 3, true⟩ :=
  (effect_new_validation 3 true).2.2 (by norm_num)
    (by rw [gt_iff_lt, lt_abs]; left; rw [f64Epsilon]; norm_num)

/-- C7: constructing a pitch or speed effect with the exact neutral magnitude
`1.0` succeeds with the multiplier unset, classifies as `Tier::Default`, and
its `apply` leaves the effect's own sub-fields unset — the state those
sub-fields have in a `Filters` to which no effect was ever applied. -/
theorem neutral_effect_default :
    SetPitch.new 1 = some ⟨none⟩ ∧
    SetPitch.tier ⟨none⟩ = PitchTier.Default ∧
    (∀ b : Bool, SpeedFilter.new 1 b = some ⟨none, b⟩) ∧
    (∀ b : Bool, SpeedFilter.tier ⟨none, b⟩ = SpeedTier.Default) ∧
    (∀ f : Filters, (SetPitch.apply ⟨none⟩ f).tsGet .pitch = none) ∧
    (∀ (b : Bool) (f : Filters),
      (SpeedFilter.apply ⟨none, b⟩ f).tsGet .speed = none ∧
      (SpeedFilter.apply ⟨none, b⟩ f).tsGet .rate = none) ∧
    (∀ field : TsField, Filters.default.tsGet field = none) := by
  refine ⟨?_, rfl, ?_, ?_, ?_, ?_, ?_⟩
  · unfold SetPitch.new
    rw [if_pos one_ne_zero, if_neg (by rw [SetPitch.DEFAULT_PITCH]; exact one_is_neutral)]
  · intro b
    unfold SpeedFilter.new
    rw [if_pos one_ne_zero, if_neg (by rw [SpeedFilter.DEFAULT_SPEED]; exact one_is_neutral)]
  · intro b
    rfl
  · intro f
    simp [SetPitch.apply, SetPitch.into_timescale_via, Filters.tsGet, Timescale.get]
  · intro b f
    cases b <;>
      simp [SpeedFilter.apply, SpeedFilter.into_timescale_via, Filters.tsGet, Timescale.get]
  · intro field
    cases field <;> rfl

/-- C9: a `SpeedFilter` with a stored multiplier `m` writes `m` into
`Timescale.rate` and unsets `speed` when `pitch_shift` is true, and writes
`m` into `Timescale.speed` and unsets `rate` when `pitch_shift` is false;
after any `SpeedFilter` apply at most one of `speed` and `rate` is set. -/
theorem speed_apply_exclusive (s : SpeedFilter) (f : Filters) (m : ℚ)
    (hm : s.multiplier = some m) :
    ((s.pitch_shift = true →
        (s.apply f).tsGet .rate = some m ∧ (s.apply f).tsGet .speed = none) ∧
      (s.pitch_shift = false →
        (s.apply f).tsGet .speed = some m ∧ (s.apply f).tsGet .rate = none)) ∧
    (∀ (s2 : SpeedFilter) (f2 : Filters),
      (s2.apply f2).tsGet .speed = none ∨ (s2.apply f2).tsGet .rate = none) := by
  constructor
  · constructor <;> intro hb <;>
      simp [SpeedFilter.apply, SpeedFilter.into_timescale_via, Filters.tsGet, Timescale.get,
        hb, hm]
  · intro s2 f2
    cases hb : s2.pitch_shift
    · right
      simp [SpeedFilter.apply, SpeedFilter.into_timescale_via, Filters.tsGet, Timescale.get, hb]
    · left
      simp [SpeedFilter.apply, SpeedFilter.into_timescale_via, Filters.tsGet, Timescale.get, hb]

/-- Witness for C9: `SpeedFilter { multiplier: Some(2.0), pitch_shift: true }`
applied to the empty `Filters` sets `rate` and unsets `speed`. -/
theorem speed_apply_exclusive_witness :
    (SpeedFilter.apply ⟨some 2, true⟩ Filters.default).tsGet .rate = some 2 ∧
    (SpeedFilter.apply ⟨some 2, true⟩ Filters.default).tsGet .speed = none :=
  (speed_apply_exclusive ⟨some 2, true⟩ Filters.default 2 rfl).1.1 rfl

/-- C2: for every kind and raw interaction, the generated constructor succeeds
exactly when the interaction's wire discriminant equals the kind's mapped
discriminant; on success the embedded interaction is returned unchanged, and
on a mismatch construction never succeeds. -/
theorem ctx_construction {α β : Type} (K : Kind) (i : InteractionCreate α) (b : β) :
    ((fromKindInteraction K i b).isSome = true ↔ i.kind = K.interType) ∧
    (i.kind = K.interType → fromKindInteraction K i b = some ⟨b, i⟩) ∧
    (i.kind ≠ K.interType → fromKindInteraction K i b = none) := by
  unfold fromKindInteraction
  refine ⟨?_, ?_, ?_⟩ <;> split <;> simp_all

/-- Witness for C2: constructing an `App` context from an interaction whose
wire discriminant is `ApplicationCommand` succeeds and returns the payload
unchanged. -/
theorem ctx_construction_witness :
    fromKindInteraction Kind.App ⟨InteractionType.ApplicationCommand, (7 : ℕ)⟩ (0 : ℕ) =
      some ⟨0, ⟨InteractionType.ApplicationCommand, 7⟩⟩ :=
  (ctx_construction Kind.App ⟨InteractionType.ApplicationCommand, (7 : ℕ)⟩ (0 : ℕ)).2.1 rfl

/-- C8: the dispatcher routes `Ready`, `GuildCreate`, `GuildDelete`,
`InteractionCreate` and `VoiceStateUpdate` to their context construction and
processing, returning the handler's result verbatim (no error suppressed),
and every other event kind yields `Ok` with no context constructed and no
handler invoked. -/
theorem process_routing {ε : Type} (h : GatewayCtx → Except ε Unit) (d k : ℕ) :
    process (.ready d) h = (h (.ready d), [.ready d]) ∧
    process (.guildCreate d) h = (h (.guildCreate d), [.guildCreate d]) ∧
    process (.guildDelete d) h = (h (.guildDelete d), [.guildDelete d]) ∧
    process (.interactionCreate d) h = (h (.interactionCreate d), [.interactionCreate d]) ∧
    process (.voiceStateUpdate d) h = (h (.voiceStateUpdate d), [.voiceStateUpdate d]) ∧
    process (.other k) h = (Except.ok (), []) :=
  ⟨rfl, rfl, rfl, rfl, rfl, rfl⟩

/-- C1 fails as stated: at volume `15`, `Down(20%)` takes the mute path, which
sets the local connection's mute flag *before* the remote Discord mute call;
when that remote call fails the operation reports failure but the local state
has already been mutated away from its pre-operation value. -/
theorem down_mute_partial_commit_cex :
    (downRun (some 20) ⟨15, false⟩ true false).ok = false ∧
    (downRun (some 20) ⟨15, false⟩ true false).state ≠ (⟨15, false⟩ : DownState) := by
  decide

/-- C1 (amended): on the set-volume path the remote volume call is issued
before the local commit, and a remote failure leaves the local state at its
pre-operation value, reported as failed with no retry (one remote call in the
trace); on the set-mute path the local connection mute flag is committed
*before* the single remote Discord mute call, so the local state is mutated
even when the remote call fails, and the failure is reported with no
retry. -/
theorem down_two_phase (percent : Option ℕ) (st : DownState) (volOk muteOk : Bool) :
    (percent.getD 10 < st.volume →
      (volOk = false → downRun percent st volOk muteOk =
        { ok := false, state := st,
          trace := [.remoteSetVolume (st.volume - percent.getD 10)] }) ∧
      (volOk = true → downRun percent st volOk muteOk =
        { ok := true, state := { st with volume := st.volume - percent.getD 10 },
          trace := [.remoteSetVolume (st.volume - percent.getD 10),
            .localSetVolume (st.volume - percent.getD 10)] })) ∧
    (st.volume ≤ percent.getD 10 →
      downRun percent st volOk muteOk =
        { ok := muteOk, state := { st with connMute := true },
          trace := [.localSetMute true, .remoteSetMute true] }) := by
  constructor
  · intro hlt
    constructor <;> intro hok <;> simp [downRun, if_pos hlt, hok]
  · intro hge
    simp [downRun, if_neg (not_lt.mpr hge)]

/-- Witness for C1 (amended): at volume `15`, `Down(5%)` with a failing remote
volume call leaves the local state untouched and reports failure after the
single remote call. -/
theorem down_two_phase_witness :
    downRun (some 5) ⟨15, false⟩ false false =
      { ok := false, state := ⟨15, false⟩, trace := [.remoteSetVolume 10] } :=
  ((down_two_phase (some 5) ⟨15, false⟩ false false).1 (by decide)).1 rfl

/-- C3: with current volume `V > 0` and decrement `D`, when `V - D ≤ 0` the
operation produces the explicit muted state (local connection mute set), the
stored volume stays positive, and the only remote call issued is the mute-set
call; when `V - D > 0` and the remote volume-set call succeeds, the stored
volume becomes the positive `V - D`, committed after the remote call. -/
theorem down_boundary (percent : Option ℕ) (st : DownState) (volOk muteOk : Bool)
    (hV : 0 < st.volume) :
    (st.volume ≤ percent.getD 10 →
      (downRun percent st volOk muteOk).state.connMute = true ∧
      0 < (downRun percent st volOk muteOk).state.volume ∧
      remoteCalls (downRun percent st volOk muteOk).trace = [.remoteSetMute true]) ∧
    (percent.getD 10 < st.volume → volOk = true →
      (downRun percent st volOk muteOk).state.volume = st.volume - percent.getD 10 ∧
      0 < (downRun percent st volOk muteOk).state.volume ∧
      (downRun percent st volOk muteOk).trace =
        [.remoteSetVolume (st.volume - percent.getD 10),
          .localSetVolume (st.volume - percent.getD 10)]) := by
  constructor
  · intro hge
    refine ⟨?_, ?_, ?_⟩ <;>
      simp [downRun, if_neg (not_lt.mpr hge), remoteCalls, Ev.isRemote, hV]
  · intro hlt hok
    subst hok
    refine ⟨?_, ?_, ?_⟩ <;>
      simp [downRun, if_pos hlt, Nat.sub_pos_of_lt hlt]

/-- Witness for C3 (the spec's end-to-end scenario): guild at volume `15`,
`Down(20%)` produces the muted state, keeps the stored volume positive, and
issues only the remote mute-set call. -/
theorem down_boundary_witness :
    (downRun (some 20) ⟨15, false⟩ true true).state.connMute = true ∧
    0 < (downRun (some 20) ⟨15, false⟩ true true).state.volume ∧
    remoteCalls (downRun (some 20) ⟨15, false⟩ true true).trace = [.remoteSetMute true] :=
  (down_boundary (some 20) ⟨15, false⟩ true true (by decide)).1 (by decide)

/-- C10: there is a well-formed request — `POST` to `/`, carrying a timestamp
header and an `x-signature-ed25519` header whose value is visible ASCII but
not a decodable hex signature — on which `interaction_handler` panics at the
unwrapped signature parse instead of returning a 4xx response. -/
theorem handler_signature_panic :
    ∃ req : Request,
      req.method = Method.post ∧
      req.path = "/" ∧
      (getHeader req "x-signature-timestamp").isSome = true ∧
      ((getHeader req "x-signature-ed25519").bind headerToStr).isSome = true ∧
      ((getHeader req "x-signature-ed25519").bind headerToStr).bind parseSignature = none ∧
      interaction_handler req = HandlerOutcome.panicked :=
  ⟨⟨.post, "/", [("x-signature-timestamp", [48]), ("x-signature-ed25519", [122, 122])]⟩,
    by decide⟩

end Lyra
